import Mathlib

/-!
Shallow embedding of the result-analysis pipeline of the secure-api-system
repository: `scripts/analyze-performance.py` (k6 performance summaries) and
`scripts/analyze-security.py` (OWASP ZAP security summaries), together with
proofs checking the specification's claims against these definitions.

Conventions of the embedding:
* JSON dictionaries with a known set of keys become structures whose fields are
  `Option`-valued; `dict.get(key, default)` becomes `Option.getD`.
* Python floats become exact rationals `ℚ`.
* Python strings become `String`; character-level scanning (the split on the
  `" - "` separator) is done on `String.data : List Char`.
* `datetime.now()` timestamps and the `round(x, 2)` display rounding of the
  scripts are not modelled: no claim concerns them, and the comparisons in the
  scripts are all made on the unrounded values.
-/

/-- One metric group of the k6 result document (the value found under a key of
the `metrics` mapping, e.g. `http_req_duration`).  Each numeric sub-field is
optional, mirroring `dict.get(field, 0)` at the use sites.  The field `p95`
stands for the JSON key `p(95)` and `p99` for `p(99)`. -/
structure MetricGroup where
  avg : Option ℚ := none
  p95 : Option ℚ := none
  p99 : Option ℚ := none
  rate : Option ℚ := none
  count : Option ℚ := none
  max : Option ℚ := none
deriving Repr, DecidableEq

/-- The `metrics` mapping of a k6 result document, with the six keys the script
reads; a missing key mirrors `metrics.get(key, {})`. -/
structure K6Metrics where
  http_req_duration : Option MetricGroup := none
  http_req_failed : Option MetricGroup := none
  http_reqs : Option MetricGroup := none
  vus : Option MetricGroup := none
  data_received : Option MetricGroup := none
  data_sent : Option MetricGroup := none
deriving Repr, DecidableEq

/-- The `state` object of a k6 result document. -/
structure K6State where
  testRunDurationMs : Option ℚ := none
deriving Repr, DecidableEq

/-- A parsed k6 result document, as far as `analyze_performance_results`
reads it: the `metrics` mapping and the `state` object, either possibly
absent (`data.get('metrics', {})`, `data.get('state', {})`). -/
structure K6Doc where
  metrics : Option K6Metrics := none
  state : Option K6State := none
deriving Repr, DecidableEq

/-- One entry of the `thresholds` dict literal built by
`analyze_performance_results`: metric name, extracted value, threshold and
unit. -/
structure ThresholdEntry where
  name : String
  value : ℚ
  threshold : ℚ
  unit : String
deriving Repr, DecidableEq

/-- One entry of the `results` dict built by `analyze_performance_results`:
the per-metric verdict.  `value` is kept exact here; the script stores
`round(value, 2)` for display but computes `passed` from the unrounded
value. -/
structure MetricVerdict where
  name : String
  value : ℚ
  threshold : ℚ
  unit : String
  passed : Bool
deriving Repr, DecidableEq

/-- The pass test of the threshold loop of `analyze_performance_results`:
`error_rate` compares with `<=`; any other metric also compares with `<=`
unless it is `throughput`, which compares with `>=`. -/
def metricPassed (metric : String) (value threshold : ℚ) : Bool :=
  if metric = "error_rate" then value ≤ threshold
  else if metric ≠ "throughput" then value ≤ threshold
  else value ≥ threshold

/-- The `thresholds` dict literal of `analyze_performance_results`: the five
evaluated metrics with their extracted values, fixed limits and units.  The
`error_rate` value is `http_req_failed.get('rate', 0) * 100`; every other
value is the raw extracted field. -/
def perfThresholds (data : K6Doc) : List ThresholdEntry :=
  let metrics := data.metrics.getD {}
  let http_req_duration := metrics.http_req_duration.getD {}
  let avg_response_time := http_req_duration.avg.getD 0
  let p95_response_time := http_req_duration.p95.getD 0
  let p99_response_time := http_req_duration.p99.getD 0
  let http_req_failed := metrics.http_req_failed.getD {}
  let error_rate := http_req_failed.rate.getD 0 * 100
  let http_reqs := metrics.http_reqs.getD {}
  let throughput := http_reqs.rate.getD 0
  [⟨"avg_response_time", avg_response_time, 500, "ms"⟩,
   ⟨"p95_response_time", p95_response_time, 1000, "ms"⟩,
   ⟨"p99_response_time", p99_response_time, 2000, "ms"⟩,
   ⟨"error_rate", error_rate, 1, "%"⟩,
   ⟨"throughput", throughput, 100, "req/s"⟩]

/-- The `results` mapping built by the loop over `thresholds.items()`: one
verdict per threshold entry. -/
def perfResults (data : K6Doc) : List MetricVerdict :=
  (perfThresholds data).map fun e =>
    ⟨e.name, e.value, e.threshold, e.unit, metricPassed e.name e.value e.threshold⟩

/-- The `overall_pass` flag: initialised to `True`, set to `False` by any
entry whose verdict failed (the loop `if not passed: overall_pass = False`). -/
def overallPass (data : K6Doc) : Bool :=
  (perfResults data).foldl (fun acc r => if !r.passed then false else acc) true

/-- The performance summary object, restricted to the fields with decision
content (timestamp and rounded display copies omitted, see the file header). -/
structure RunSummary where
  overall_status : String
  total_requests : ℚ
  max_vus : ℚ
  test_duration : ℚ
  data_received : ℚ
  data_sent : ℚ
  results : List MetricVerdict
deriving Repr, DecidableEq

/-- `analyze_performance_results` on an already-parsed document (the script
exits fatally before this point when the file is missing or not JSON). -/
def analyze_performance_results (data : K6Doc) : RunSummary :=
  let metrics := data.metrics.getD {}
  let http_reqs := metrics.http_reqs.getD {}
  let total_requests := http_reqs.count.getD 0
  let vus := metrics.vus.getD {}
  let max_vus := vus.max.getD 0
  let data_received := metrics.data_received.getD {}
  let data_sent := metrics.data_sent.getD {}
  { overall_status := if overallPass data then "pass" else "fail"
    total_requests := total_requests
    max_vus := max_vus
    test_duration := ((data.state.getD {}).testRunDurationMs.getD 0) / 1000
    data_received := data_received.count.getD 0
    data_sent := data_sent.count.getD 0
    results := perfResults data }

/-- Whether the three-character separator occurs in the character list:
the test `' - ' in risk_desc` of `analyze_zap_results`. -/
def containsSep : List Char → Bool
  | ' ' :: '-' :: ' ' :: _ => true
  | _ :: rest => containsSep rest
  | [] => false

/-- `risk_desc.split(' - ')` on the character level: Python's `str.split`
cuts at every non-overlapping occurrence of the separator, scanning left to
right; `acc` holds the characters of the current field in reverse. -/
def splitSepAux : List Char → List Char → List (List Char)
  | acc, ' ' :: '-' :: ' ' :: rest => acc.reverse :: splitSepAux [] rest
  | acc, c :: rest => splitSepAux (c :: acc) rest
  | acc, [] => [acc.reverse]

/-- `risk_desc.split(' - ')`. -/
def splitSep (s : List Char) : List (List Char) :=
  splitSepAux [] s

/-- The risk-description parsing of `analyze_zap_results`: when `' - '`
occurs in `riskdesc`, `risk_level` is `split(' - ')[0]` and
`confidence_level` is `split(' - ')[1]` (the second split field); otherwise
both are `"Unknown"`.  When the separator is present the split has at least
two fields, so the `[1]` access never raises; `getD` stands in for it. -/
def classify (risk_desc : String) : String × String :=
  if containsSep risk_desc.data then
    (String.mk ((splitSep risk_desc.data).getD 0 []),
     String.mk ((splitSep risk_desc.data).getD 1 []))
  else ("Unknown", "Unknown")

/-- The specification's wording of the classifier, for comparison with
`classify`: the text before the FIRST occurrence of the separator becomes
`risk_level` and the ENTIRE remainder after that first occurrence becomes
`confidence_level`.  `beforeFirstSep` and `afterFirstSep` below realise that
wording. -/
def beforeFirstSep : List Char → List Char
  | ' ' :: '-' :: ' ' :: _ => []
  | c :: rest => c :: beforeFirstSep rest
  | [] => []

/-- The remainder after the first occurrence of the separator (spec wording,
see `classifySpec`). -/
def afterFirstSep : List Char → List Char
  | ' ' :: '-' :: ' ' :: rest => rest
  | _ :: rest => afterFirstSep rest
  | [] => []

/-- The classifier as the specification words it (split at the first
occurrence only, keeping the whole remainder as the confidence level). -/
def classifySpec (risk_desc : String) : String × String :=
  if containsSep risk_desc.data then
    (String.mk (beforeFirstSep risk_desc.data),
     String.mk (afterFirstSep risk_desc.data))
  else ("Unknown", "Unknown")

/-- One alert object of a ZAP JSON document; every field read with
`alert.get(key, default)` is optional. `instances` entries are opaque
payloads, kept as strings. -/
structure ZapAlertJson where
  name : Option String := none
  riskdesc : Option String := none
  confidence : Option String := none
  riskcode : Option String := none
  desc : Option String := none
  solution : Option String := none
  reference : Option String := none
  instances : Option (List String) := none
deriving Repr, DecidableEq

/-- One entry of the `site` sequence of a ZAP JSON document.  The fields
`name`, `host`, `port`, `ssl` stand for the JSON keys `@name`, `@host`,
`@port`, `@ssl`. -/
structure SiteJson where
  name : Option String := none
  host : Option String := none
  port : Option String := none
  ssl : Option Bool := none
  alerts : Option (List ZapAlertJson) := none
deriving Repr, DecidableEq

/-- A parsed ZAP result document: the optional `site` sequence. -/
structure ZapDoc where
  site : Option (List SiteJson) := none
deriving Repr, DecidableEq

/-- Outcome of `open` plus `json.load` on one path: a parsed document, a
`FileNotFoundError`, or a `json.JSONDecodeError`. -/
inductive ReadResult where
  | ok (doc : ZapDoc)
  | notFound
  | badJson
deriving Repr, DecidableEq

/-- One `scan_info[file_path]` entry. -/
structure ScanInfo where
  name : String
  host : String
  port : String
  ssl : Bool
deriving Repr, DecidableEq

/-- One `alert_info` record appended to `all_alerts`. -/
structure AlertInfo where
  file : String
  name : String
  riskdesc : String
  confidence : String
  riskcode : String
  desc : String
  solution : String
  reference : String
  instances : List String
  risk_level : String
  confidence_level : String
deriving Repr, DecidableEq

/-- Builds the `alert_info` record for one alert of one file: raw fields are
extracted verbatim with their defaults, then the classifier fills
`risk_level` and `confidence_level`. -/
def mkAlertInfo (file_path : String) (alert : ZapAlertJson) : AlertInfo :=
  let risk_desc := alert.riskdesc.getD ""
  let rc := classify risk_desc
  { file := file_path
    name := alert.name.getD ""
    riskdesc := risk_desc
    confidence := alert.confidence.getD ""
    riskcode := alert.riskcode.getD ""
    desc := alert.desc.getD ""
    solution := alert.solution.getD ""
    reference := alert.reference.getD ""
    instances := alert.instances.getD []
    risk_level := rc.1
    confidence_level := rc.2 }

/-- The per-file body of the ingestion loop on a successfully parsed
document: `site = data.get('site', [])`; when the sequence is nonempty, only
`site[0]` contributes the scan-info entry and the alert records. -/
def docContribution (file_path : String) (data : ZapDoc) :
    List AlertInfo × List (String × ScanInfo) :=
  match data.site.getD [] with
  | [] => ([], [])
  | site_info :: _ =>
      ((site_info.alerts.getD []).map (mkAlertInfo file_path),
       [(file_path, ⟨site_info.name.getD "", site_info.host.getD "",
                     site_info.port.getD "", site_info.ssl.getD false⟩)])

/-- The mutable state of the `for file_path in results_files` loop:
accumulated alert records, insertion-ordered `scan_info` mapping, and the
warnings printed so far. -/
structure IngestState where
  all_alerts : List AlertInfo
  scan_info : List (String × ScanInfo)
  warnings : List String
deriving Repr, DecidableEq

/-- One iteration of the ingestion loop: a parsed file appends its
contribution; a missing or malformed file records the printed warning and
the loop continues with the next path. -/
def stepFile (readFile : String → ReadResult) (st : IngestState)
    (file_path : String) : IngestState :=
  match readFile file_path with
  | .ok data =>
      let c := docContribution file_path data
      { st with all_alerts := st.all_alerts ++ c.1, scan_info := st.scan_info ++ c.2 }
  | .notFound => { st with warnings := st.warnings ++ ["警告: 找不到结果文件 " ++ file_path] }
  | .badJson => { st with warnings := st.warnings ++ ["警告: 无法解析 JSON 文件 " ++ file_path] }

/-- The whole ingestion loop of `analyze_zap_results`, over an abstract file
system `readFile`. -/
def ingest (results_files : List String) (readFile : String → ReadResult) : IngestState :=
  results_files.foldl (stepFile readFile) ⟨[], [], []⟩

/-- The five risk counters (`risk_counts = {level: 0 for level in
RISK_LEVELS}` followed by `risk_counts['Unknown'] = 0`). -/
structure RiskCounts where
  high : Nat := 0
  medium : Nat := 0
  low : Nat := 0
  informational : Nat := 0
  unknown : Nat := 0
deriving Repr, DecidableEq

/-- One counting step: `if risk_level in risk_counts:
risk_counts[risk_level] += 1 else: risk_counts['Unknown'] += 1`.  The
dictionary's keys are the four known levels plus `Unknown`, so the literal
key `"Unknown"` hits its own counter and every other unrecognized string
falls through to the same counter; the two cases merge into the final
branch. -/
def bumpCount (c : RiskCounts) (risk_level : String) : RiskCounts :=
  if risk_level = "High" then { c with high := c.high + 1 }
  else if risk_level = "Medium" then { c with medium := c.medium + 1 }
  else if risk_level = "Low" then { c with low := c.low + 1 }
  else if risk_level = "Informational" then { c with informational := c.informational + 1 }
  else { c with unknown := c.unknown + 1 }

/-- The counting loop `for alert in all_alerts`. -/
def riskCounts (all_alerts : List AlertInfo) : RiskCounts :=
  all_alerts.foldl (fun c a => bumpCount c a.risk_level) {}

/-- `RISK_LEVELS.get(risk_level, default)['priority']`: the severity rank. -/
def priority (risk_level : String) : Nat :=
  if risk_level = "High" then 4
  else if risk_level = "Medium" then 3
  else if risk_level = "Low" then 2
  else if risk_level = "Informational" then 1
  else 0

/-- `sorted(all_alerts, key=priority, reverse=True)`: Python's sort is
stable, and `reverse=True` keeps equal-key elements in their original
relative order, so the call is a stable sort by descending rank; `mergeSort`
with the reflexive total relation `rank b ≤ rank a` is exactly that. -/
def sortAlertsDesc (all_alerts : List AlertInfo) : List AlertInfo :=
  all_alerts.mergeSort fun a b => priority b.risk_level ≤ priority a.risk_level

/-- The security summary object, restricted to the fields with decision
content (the timestamp is omitted, see the file header). -/
structure SecuritySummary where
  total_alerts : Nat
  high_risk_count : Nat
  medium_risk_count : Nat
  low_risk_count : Nat
  info_risk_count : Nat
  unknown_risk_count : Nat
  risk_counts : RiskCounts
  scan_info : List (String × ScanInfo)
  alerts : List AlertInfo
  overall_status : String
deriving Repr, DecidableEq

/-- The summary-building tail of `analyze_zap_results`, from the accumulated
alert records and scan metadata. -/
def aggregateAlerts (all_alerts : List AlertInfo)
    (scan_info : List (String × ScanInfo)) : SecuritySummary :=
  let counts := riskCounts all_alerts
  let sorted_alerts := sortAlertsDesc all_alerts
  { total_alerts := all_alerts.length
    high_risk_count := counts.high
    medium_risk_count := counts.medium
    low_risk_count := counts.low
    info_risk_count := counts.informational
    unknown_risk_count := counts.unknown
    risk_counts := counts
    scan_info := scan_info
    alerts := sorted_alerts.take 20
    overall_status := if counts.high > 0 then "fail" else "pass" }

/-- `analyze_zap_results`, returning the summary and the warnings the script
prints along the way. -/
def analyze_zap_results (results_files : List String)
    (readFile : String → ReadResult) : SecuritySummary × List String :=
  let st := ingest results_files readFile
  (aggregateAlerts st.all_alerts st.scan_info, st.warnings)

/-- Whether a risk-level string is one of the four known levels of
`RISK_LEVELS` (exact, case-sensitive match); used to state the counting
claims.  The fifth counter key `Unknown` and every unrecognized string both
feed the `unknown` counter, so the unknown bucket is the complement of this
predicate. -/
def isKnownLevel (risk_level : String) : Bool :=
  risk_level == "High" || risk_level == "Medium" ||
  risk_level == "Low" || risk_level == "Informational"

/-- Per-path alert contribution of the ingestion loop, for stating how
`ingest` decomposes over the path list. -/
def okAlerts (readFile : String → ReadResult) (file_path : String) : List AlertInfo :=
  match readFile file_path with
  | .ok data => (docContribution file_path data).1
  | .notFound => []
  | .badJson => []

/-- Per-path scan-info contribution of the ingestion loop. -/
def okScanInfo (readFile : String → ReadResult) (file_path : String) :
    List (String × ScanInfo) :=
  match readFile file_path with
  | .ok data => (docContribution file_path data).2
  | .notFound => []
  | .badJson => []

/-- Per-path warning of the ingestion loop: `none` on success, the printed
message otherwise. -/
def warningOf (readFile : String → ReadResult) (file_path : String) : Option String :=
  match readFile file_path with
  | .ok _ => none
  | .notFound => some ("警告: 找不到结果文件 " ++ file_path)
  | .badJson => some ("警告: 无法解析 JSON 文件 " ++ file_path)

/-- Test fixture: an alert record carrying a given risk level, with all raw
fields empty. -/
def alertWithLevel (risk_level : String) : AlertInfo :=
  { file := "", name := "", riskdesc := "", confidence := "", riskcode := ""
    desc := "", solution := "", reference := "", instances := []
    risk_level := risk_level, confidence_level := "" }

/-- Test fixture: a parsed ZAP document with one site holding one Low-risk
alert. -/
def demoDoc : ZapDoc :=
  { site := some [{ name := some "site1", host := some "h", port := some "80",
                    ssl := some false,
                    alerts := some [{ name := some "a1", riskdesc := some "Low - Medium" }] }] }

/-- Test fixture: a file system where only `good.json` exists and parses. -/
def demoRead : String → ReadResult := fun file_path =>
  if file_path = "good.json" then .ok demoDoc else .notFound

/-! Helper lemmas about the performance pipeline. -/

theorem foldl_passed_and (l : List MetricVerdict) (acc : Bool) :
    l.foldl (fun acc r => r.passed && acc) acc = (acc && l.all fun v => v.passed) := by
  induction l generalizing acc with
  | nil => simp
  | cons x xs ih =>
    rw [List.foldl_cons, ih, List.all_cons]
    cases acc <;> cases hx : x.passed <;> simp [hx]

theorem overallPass_eq_all (data : K6Doc) :
    overallPass data = ((perfResults data).all fun v => v.passed) := by
  have h := foldl_passed_and (perfResults data) true
  simp only [Bool.true_and] at h
  rw [← h, overallPass.eq_def]
  congr 1
  funext acc r
  cases r.passed <;> rfl

/-- C1: for every input metrics mapping, the performance summary's
`overall_status` is `"pass"` if and only if every per-metric verdict's
`passed` flag is true; a single failing metric makes the overall status
`"fail"`, with no partial-credit aggregation or weighting. -/
theorem claim1_overall_status_iff_all (data : K6Doc) :
    (analyze_performance_results data).overall_status = "pass" ↔
      ∀ v ∈ (analyze_performance_results data).results, v.passed = true := by
  have h := overallPass_eq_all data
  rw [show (analyze_performance_results data).overall_status
        = if overallPass data then "pass" else "fail" from rfl,
      show (analyze_performance_results data).results = perfResults data from rfl]
  cases hb : overallPass data with
  | false =>
    rw [hb] at h
    simp only [Bool.false_eq_true, if_false]
    constructor
    · intro hc; exact absurd hc (by decide)
    · intro hall
      have hall' : (perfResults data).all (fun v => v.passed) = true :=
        List.all_eq_true.mpr fun v hv => hall v hv
      exact absurd (h.trans hall') (by decide)
  | true =>
    rw [hb] at h
    simp only [if_true]
    constructor
    · intro _ v hv
      exact List.all_eq_true.mp h.symm v hv
    · intro _
      trivial

/-- C3: an AT_MOST metric (every metric other than throughput) passes exactly
when `value <= limit`, the AT_LEAST metric (throughput) passes exactly when
`value >= limit`, and a value exactly equal to the limit passes in both
directions. -/
theorem claim3_direction_boundaries (value limit : ℚ) :
    (∀ metric : String, metric ≠ "throughput" →
        (metricPassed metric value limit = true ↔ value ≤ limit)) ∧
    (metricPassed "throughput" value limit = true ↔ limit ≤ value) ∧
    (∀ metric : String, metricPassed metric limit limit = true) := by
  refine ⟨?_, ?_, ?_⟩
  · intro metric hm
    by_cases he : metric = "error_rate" <;> simp [metricPassed, he, hm]
  · simp [metricPassed]
  · intro metric
    by_cases he : metric = "error_rate" <;> by_cases ht : metric = "throughput" <;>
      simp [metricPassed, he, ht]

/-- Witness for C3: concrete boundary checks through
`claim3_direction_boundaries`. -/
theorem claim3_witness :
    (metricPassed "error_rate" 3 5 = true ↔ (3 : ℚ) ≤ 5) ∧
    (metricPassed "throughput" 3 5 = true ↔ (5 : ℚ) ≤ 3) ∧
    metricPassed "avg_response_time" 7 7 = true :=
  ⟨(claim3_direction_boundaries 3 5).1 "error_rate" (by decide),
   (claim3_direction_boundaries 3 5).2.1,
   (claim3_direction_boundaries 7 7).2.2 "avg_response_time"⟩

/-- C8: when the document's `metrics` structure is entirely absent every
metric value defaults to 0, so the four AT_MOST metrics pass trivially and
the AT_LEAST throughput metric (limit 100) fails, the overall status is
`"fail"`, and a verdict is still produced for every one of the five policy
entries of every document. -/
theorem claim8_absent_metrics_defaults :
    (∀ data : K6Doc, (analyze_performance_results data).results.length = 5) ∧
    ((analyze_performance_results {}).results.map (fun v => v.value) = [0, 0, 0, 0, 0]) ∧
    ((analyze_performance_results {}).results.map (fun v => v.passed)
        = [true, true, true, true, false]) ∧
    (analyze_performance_results {}).overall_status = "fail" := by
  refine ⟨fun data => rfl, ?_, ?_, ?_⟩ <;>
    norm_num [analyze_performance_results, overallPass, perfResults, perfThresholds,
              metricPassed] <;> decide

/-- C10: the `error_rate` value compared against its threshold 1 is the raw
`http_req_failed.rate` multiplied by 100, no other metric value is rescaled,
and at the boundary a raw rate of 1/100 passes while 11/1000 fails. -/
theorem claim10_error_rate_scaling :
    (∀ data : K6Doc,
      (analyze_performance_results data).results.map (fun v => (v.name, v.value, v.threshold)) =
        [("avg_response_time", ((data.metrics.getD {}).http_req_duration.getD {}).avg.getD 0, 500),
         ("p95_response_time", ((data.metrics.getD {}).http_req_duration.getD {}).p95.getD 0, 1000),
         ("p99_response_time", ((data.metrics.getD {}).http_req_duration.getD {}).p99.getD 0, 2000),
         ("error_rate", ((data.metrics.getD {}).http_req_failed.getD {}).rate.getD 0 * 100, 1),
         ("throughput", ((data.metrics.getD {}).http_reqs.getD {}).rate.getD 0, 100)]) ∧
    (((analyze_performance_results
          { metrics := some { http_req_failed := some { rate := some (1/100) } } }).results.filter
        (fun v => v.name == "error_rate")).map (fun v => v.passed) = [true]) ∧
    (((analyze_performance_results
          { metrics := some { http_req_failed := some { rate := some (11/1000) } } }).results.filter
        (fun v => v.name == "error_rate")).map (fun v => v.passed) = [false]) := by
  refine ⟨fun data => rfl, ?_, ?_⟩ <;>
    norm_num [analyze_performance_results, perfResults, perfThresholds, metricPassed] <;>
    decide

/-! Helper lemmas about the separator split. -/

theorem containsSep_cons_ne (c : Char) (rest : List Char)
    (h : ∀ r, c = ' ' → rest = '-' :: ' ' :: r → False) :
    containsSep (c :: rest) = containsSep rest := by
  rw [containsSep.eq_def]
  split
  · rename_i tail heq
    injection heq with h1 h2
    exact absurd h2 (fun hr => h tail h1 hr)
  · rename_i a hd tl hno heq
    injection heq with h1 h2
    rw [h2]
  · rename_i a heq
    exact absurd heq (List.cons_ne_nil _ _)

theorem beforeFirstSep_cons_ne (c : Char) (rest : List Char)
    (h : ∀ r, c = ' ' → rest = '-' :: ' ' :: r → False) :
    beforeFirstSep (c :: rest) = c :: beforeFirstSep rest := by
  rw [beforeFirstSep.eq_def]
  split
  · rename_i tail heq
    injection heq with h1 h2
    exact absurd h2 (fun hr => h tail h1 hr)
  · rename_i a hd tl hno heq
    injection heq with h1 h2
    rw [h1, h2]
  · rename_i a heq
    exact absurd heq (List.cons_ne_nil _ _)

theorem afterFirstSep_cons_ne (c : Char) (rest : List Char)
    (h : ∀ r, c = ' ' → rest = '-' :: ' ' :: r → False) :
    afterFirstSep (c :: rest) = afterFirstSep rest := by
  rw [afterFirstSep.eq_def]
  split
  · rename_i tail heq
    injection heq with h1 h2
    exact absurd h2 (fun hr => h tail h1 hr)
  · rename_i a hd tl hno heq
    injection heq with h1 h2
    rw [h2]
  · rename_i a heq
    exact absurd heq (List.cons_ne_nil _ _)

theorem splitSepAux_cons_ne (acc : List Char) (c : Char) (rest : List Char)
    (h : ∀ r, c = ' ' → rest = '-' :: ' ' :: r → False) :
    splitSepAux acc (c :: rest) = splitSepAux (c :: acc) rest := by
  rw [splitSepAux.eq_def]
  split
  · rename_i tail heq
    injection heq with h1 h2
    exact absurd h2 (fun hr => h tail h1 hr)
  · rename_i a hd tl hno heq
    injection heq with h1 h2
    rw [h1, h2]
  · rename_i a heq
    exact absurd heq (List.cons_ne_nil _ _)

theorem splitSepAux_spec (acc s : List Char) :
    splitSepAux acc s = if containsSep s = true then
      (acc.reverse ++ beforeFirstSep s) :: splitSep (afterFirstSep s)
    else [acc.reverse ++ s] := by
  induction acc, s using splitSepAux.induct with
  | case1 acc rest =>
    simp [splitSepAux, containsSep, beforeFirstSep, afterFirstSep, splitSep]
  | case2 acc c rest h ih =>
    rw [splitSepAux_cons_ne acc c rest h, ih, containsSep_cons_ne c rest h,
        beforeFirstSep_cons_ne c rest h, afterFirstSep_cons_ne c rest h]
    by_cases hc : containsSep rest = true <;> simp [hc]
  | case3 acc =>
    simp [splitSepAux, containsSep]

/-- `split(' - ')` produces the text before the first separator occurrence,
followed by the split of the remainder after it. -/
theorem splitSep_spec (s : List Char) :
    splitSep s = if containsSep s = true then
      beforeFirstSep s :: splitSep (afterFirstSep s)
    else [s] := by
  simpa [splitSep] using splitSepAux_spec [] s

theorem beforeFirstSep_of_not_contains (s : List Char) (h : containsSep s = false) :
    beforeFirstSep s = s := by
  induction s using beforeFirstSep.induct with
  | case1 tail => simp [containsSep] at h
  | case2 c rest hne ih =>
    rw [containsSep_cons_ne c rest hne] at h
    rw [beforeFirstSep_cons_ne c rest hne, ih h]
  | case3 => rfl

theorem splitSep_ne_nil (s : List Char) : splitSep s ≠ [] := by
  rw [splitSep_spec]
  by_cases hc : containsSep s = true <;> simp [hc]

/-- The first split field is always the text before the first separator
occurrence (the whole string when there is none). -/
theorem splitSep_head (s : List Char) : (splitSep s).getD 0 [] = beforeFirstSep s := by
  rw [splitSep_spec]
  by_cases hc : containsSep s = true <;> simp [hc]
  exact (beforeFirstSep_of_not_contains s (by simpa using hc)).symm

/-- The second split field is the text between the first and the second
separator occurrence (the whole remainder when the separator occurs only
once). -/
theorem splitSep_second (s : List Char) (h : containsSep s = true) :
    (splitSep s).getD 1 [] = beforeFirstSep (afterFirstSep s) := by
  rw [splitSep_spec, if_pos h, List.getD_cons_succ]
  exact splitSep_head (afterFirstSep s)

theorem splitSep_length_two (s : List Char) (h : containsSep s = true) :
    2 ≤ (splitSep s).length := by
  rw [splitSep_spec, if_pos h]
  cases hsp : splitSep (afterFirstSep s) with
  | nil => exact absurd hsp (splitSep_ne_nil _)
  | cons a l => simp [hsp]

/-- C4 counterexample: on the input "High - Medium - Low" the code's
classifier yields confidence "Medium" (the second split field), not the
remainder "Medium - Low" after the first separator as the claim states. -/
theorem claim4_counterexample :
    classify "High - Medium - Low" = ("High", "Medium") ∧
    containsSep ("High - Medium - Low" : String).data = true ∧
    String.mk (afterFirstSep ("High - Medium - Low" : String).data) = "Medium - Low" ∧
    classify "High - Medium - Low" ≠ classifySpec "High - Medium - Low" := by
  refine ⟨by decide, by decide, by decide, by decide⟩

/-- C4 (amended): classification splits on the literal " - "; when the
separator is present, the text before its first occurrence becomes
`risk_level` and the second split field — the text between the first and the
second occurrence, which is the whole remainder when the separator occurs
exactly once — becomes `confidence_level`; when the separator is absent both
fields are "Unknown".  Classification is total and the `[1]` access is
always in range. -/
theorem claim4_amended (risk_desc : String) :
    (containsSep risk_desc.data = true →
        classify risk_desc =
          (String.mk (beforeFirstSep risk_desc.data),
           String.mk (beforeFirstSep (afterFirstSep risk_desc.data))) ∧
        2 ≤ (splitSep risk_desc.data).length) ∧
    (containsSep risk_desc.data = false →
        classify risk_desc = ("Unknown", "Unknown")) := by
  constructor
  · intro h
    refine ⟨?_, splitSep_length_two _ h⟩
    unfold classify
    rw [if_pos h, splitSep_head, splitSep_second _ h]
  · intro h
    unfold classify
    rw [if_neg (by simp [h])]

/-- Witness for C4's amended claim on the spec's own test inputs. -/
theorem claim4_witness :
    (classify "High - Medium" =
        (String.mk (beforeFirstSep ("High - Medium" : String).data),
         String.mk (beforeFirstSep (afterFirstSep ("High - Medium" : String).data))) ∧
      2 ≤ (splitSep ("High - Medium" : String).data).length) ∧
    classify "garbage" = ("Unknown", "Unknown") :=
  ⟨(claim4_amended "High - Medium").1 (by decide),
   (claim4_amended "garbage").2 (by decide)⟩

/-! Helper lemmas about the risk counters. -/

theorem riskCounts_foldl (l : List AlertInfo) (c : RiskCounts) :
    l.foldl (fun c a => bumpCount c a.risk_level) c =
      { high := c.high + l.countP (fun a => a.risk_level == "High"),
        medium := c.medium + l.countP (fun a => a.risk_level == "Medium"),
        low := c.low + l.countP (fun a => a.risk_level == "Low"),
        informational := c.informational + l.countP (fun a => a.risk_level == "Informational"),
        unknown := c.unknown + l.countP (fun a => !(isKnownLevel a.risk_level)) } := by
  induction l generalizing c with
  | nil => simp
  | cons x xs ih =>
    rw [List.foldl_cons, ih]
    by_cases h1 : x.risk_level = "High"
    · simp [bumpCount, h1, List.countP_cons, isKnownLevel, RiskCounts.mk.injEq]
      omega
    by_cases h2 : x.risk_level = "Medium"
    · simp [bumpCount, h1, h2, List.countP_cons, isKnownLevel, RiskCounts.mk.injEq]
      omega
    by_cases h3 : x.risk_level = "Low"
    · simp [bumpCount, h1, h2, h3, List.countP_cons, isKnownLevel, RiskCounts.mk.injEq]
      omega
    by_cases h4 : x.risk_level = "Informational"
    · simp [bumpCount, h1, h2, h3, h4, List.countP_cons, isKnownLevel,
            RiskCounts.mk.injEq]
      omega
    · simp [bumpCount, h1, h2, h3, h4, List.countP_cons, isKnownLevel,
            RiskCounts.mk.injEq]
      omega

/-- The counters count exact, case-sensitive matches of the four known
levels; everything else lands in the `unknown` counter. -/
theorem riskCounts_eq (l : List AlertInfo) :
    riskCounts l =
      { high := l.countP (fun a => a.risk_level == "High"),
        medium := l.countP (fun a => a.risk_level == "Medium"),
        low := l.countP (fun a => a.risk_level == "Low"),
        informational := l.countP (fun a => a.risk_level == "Informational"),
        unknown := l.countP (fun a => !(isKnownLevel a.risk_level)) } := by
  simpa [riskCounts] using riskCounts_foldl l {}

/-- C2: the security summary's overall status is `"fail"` exactly when the
High count is positive and `"pass"` otherwise; appending any non-High alert
(Medium, Low, Informational or unrecognized) never changes the status. -/
theorem claim2_only_high_blocks (all_alerts : List AlertInfo)
    (scan_info : List (String × ScanInfo)) :
    ((aggregateAlerts all_alerts scan_info).overall_status = "fail" ↔
        0 < (riskCounts all_alerts).high) ∧
    ((aggregateAlerts all_alerts scan_info).overall_status = "pass" ↔
        (riskCounts all_alerts).high = 0) ∧
    (∀ a : AlertInfo, a.risk_level ≠ "High" →
        (aggregateAlerts (all_alerts ++ [a]) scan_info).overall_status =
          (aggregateAlerts all_alerts scan_info).overall_status) := by
  refine ⟨?_, ?_, ?_⟩
  · by_cases h : 0 < (riskCounts all_alerts).high <;> simp [aggregateAlerts, h]
  · by_cases h : 0 < (riskCounts all_alerts).high <;> (simp [aggregateAlerts, h]; omega)
  · intro a ha
    have h : (riskCounts (all_alerts ++ [a])).high = (riskCounts all_alerts).high := by
      simp [riskCounts_eq, List.countP_append, List.countP_cons, ha]
    simp [aggregateAlerts, h]

/-- Witness for C2: adding a Low alert to a Medium-only run keeps the
status. -/
theorem claim2_witness :
    (aggregateAlerts ([alertWithLevel "Medium"] ++ [alertWithLevel "Low"]) []).overall_status =
      (aggregateAlerts [alertWithLevel "Medium"] []).overall_status :=
  (claim2_only_high_blocks [alertWithLevel "Medium"] []).2.2 (alertWithLevel "Low") (by decide)

/-- C6: the aggregator keeps exactly the five counters of `RiskCounts`, all
starting at 0; each alert bumps the counter matching its `risk_level`
case-sensitively if it is one of the four known levels and the Unknown
counter otherwise, while the record itself keeps the original unrecognized
string in `risk_level` (shown on a classified "Absurd - High" alert and on a
lowercase "high" alert). -/
theorem claim6_counting (all_alerts : List AlertInfo) :
    riskCounts all_alerts =
      { high := all_alerts.countP (fun a => a.risk_level == "High"),
        medium := all_alerts.countP (fun a => a.risk_level == "Medium"),
        low := all_alerts.countP (fun a => a.risk_level == "Low"),
        informational := all_alerts.countP (fun a => a.risk_level == "Informational"),
        unknown := all_alerts.countP (fun a => !(isKnownLevel a.risk_level)) } ∧
    riskCounts [] =
      { high := 0, medium := 0, low := 0, informational := 0, unknown := 0 } ∧
    (mkAlertInfo "f" { riskdesc := some "Absurd - High" }).risk_level = "Absurd" ∧
    riskCounts [mkAlertInfo "f" { riskdesc := some "Absurd - High" }] =
      { high := 0, medium := 0, low := 0, informational := 0, unknown := 1 } ∧
    riskCounts [alertWithLevel "high"] =
      { high := 0, medium := 0, low := 0, informational := 0, unknown := 1 } ∧
    riskCounts [alertWithLevel "High", alertWithLevel "High", alertWithLevel "Medium",
                alertWithLevel "Unrecognized"] =
      { high := 2, medium := 1, low := 0, informational := 0, unknown := 1 } ∧
    (aggregateAlerts [alertWithLevel "High", alertWithLevel "High", alertWithLevel "Medium",
                      alertWithLevel "Unrecognized"] []).overall_status = "fail" := by
  exact ⟨riskCounts_eq all_alerts, by decide, by decide, by decide, by decide, by decide,
         by decide⟩

/-! Helper lemmas about the ingestion loop. -/

theorem foldl_stepFile (readFile : String → ReadResult) (files : List String)
    (st : IngestState) :
    files.foldl (stepFile readFile) st =
      { all_alerts := st.all_alerts ++ files.flatMap (okAlerts readFile),
        scan_info := st.scan_info ++ files.flatMap (okScanInfo readFile),
        warnings := st.warnings ++ files.filterMap (warningOf readFile) } := by
  induction files generalizing st with
  | nil => simp
  | cons p ps ih =>
    rw [List.foldl_cons, ih]
    cases h : readFile p <;>
      simp [stepFile, okAlerts, okScanInfo, warningOf, h, List.flatMap_cons,
            List.filterMap_cons]

/-- The ingestion loop decomposes path-by-path, in input order. -/
theorem ingest_eq (files : List String) (readFile : String → ReadResult) :
    ingest files readFile =
      { all_alerts := files.flatMap (okAlerts readFile),
        scan_info := files.flatMap (okScanInfo readFile),
        warnings := files.filterMap (warningOf readFile) } := by
  simpa [ingest] using foldl_stepFile readFile files ⟨[], [], []⟩

/-- C7: the collected alerts and warnings are the in-order concatenation of
per-path contributions; a path whose read fails contributes zero alert
records and exactly one warning while the remaining paths are still
processed (ingestion is a total function, so no exception escapes it); with
one unreadable and one valid path the output holds exactly the valid path's
alerts plus one warning for the unreadable one. -/
theorem claim7_bad_files_skipped :
    (∀ (files : List String) (readFile : String → ReadResult),
        (ingest files readFile).all_alerts = files.flatMap (okAlerts readFile) ∧
        (ingest files readFile).warnings = files.filterMap (warningOf readFile)) ∧
    (∀ (readFile : String → ReadResult) (p : String),
        (readFile p = .notFound ∨ readFile p = .badJson) →
          okAlerts readFile p = [] ∧ (warningOf readFile p).isSome = true) ∧
    (ingest ["bad.json", "good.json"] demoRead).all_alerts =
      [mkAlertInfo "good.json" { name := some "a1", riskdesc := some "Low - Medium" }] ∧
    (ingest ["bad.json", "good.json"] demoRead).warnings =
      ["警告: 找不到结果文件 bad.json"] := by
  refine ⟨fun files readFile => ?_, fun readFile p h => ?_, by decide, by decide⟩
  · rw [ingest_eq]
    exact ⟨rfl, rfl⟩
  · rcases h with h | h <;> simp [okAlerts, warningOf, h]

/-- Witness for C7: the skip-and-warn facts at the concrete broken path. -/
theorem claim7_witness :
    okAlerts demoRead "bad.json" = [] ∧ (warningOf demoRead "bad.json").isSome = true :=
  claim7_bad_files_skipped.2.1 demoRead "bad.json" (Or.inl (by decide))

/-- C9: in a successfully parsed document only the first entry of the site
sequence contributes alerts and scan metadata — the result does not depend
on the later site entries, whose alerts are silently dropped — and a
document with an empty (or absent) site sequence contributes zero alerts and
no scan-info entry. -/
theorem claim9_only_first_site :
    (∀ (file_path : String) (s0 : SiteJson) (rest rest2 : List SiteJson),
        docContribution file_path { site := some (s0 :: rest) } =
          docContribution file_path { site := some (s0 :: rest2) }) ∧
    (∀ (file_path : String) (s0 : SiteJson) (rest : List SiteJson),
        (docContribution file_path { site := some (s0 :: rest) }).1 =
          (s0.alerts.getD []).map (mkAlertInfo file_path) ∧
        (docContribution file_path { site := some (s0 :: rest) }).2 =
          [(file_path, ⟨s0.name.getD "", s0.host.getD "", s0.port.getD "",
                        s0.ssl.getD false⟩)]) ∧
    (∀ file_path : String,
        docContribution file_path { site := some [] } = ([], []) ∧
        docContribution file_path { site := none } = ([], [])) ∧
    (docContribution "f"
        { site := some [{ alerts := some [] },
                        { alerts := some [{ riskdesc := some "High - High" }] }] }).1 = [] := by
  exact ⟨fun fp s0 r r2 => rfl, fun fp s0 r => ⟨rfl, rfl⟩, fun fp => ⟨rfl, rfl⟩, rfl⟩

/-! Helper lemmas about the ranked alert view. -/

theorem priorityLe_trans (a b c : AlertInfo) :
    (fun a b : AlertInfo => (priority b.risk_level ≤ priority a.risk_level : Bool)) a b →
    (fun a b : AlertInfo => (priority b.risk_level ≤ priority a.risk_level : Bool)) b c →
    (fun a b : AlertInfo => (priority b.risk_level ≤ priority a.risk_level : Bool)) a c := by
  intro hab hbc
  simp only [decide_eq_true_eq] at hab hbc ⊢
  omega

theorem priorityLe_total (a b : AlertInfo) :
    ((fun a b : AlertInfo => (priority b.risk_level ≤ priority a.risk_level : Bool)) a b ||
     (fun a b : AlertInfo => (priority b.risk_level ≤ priority a.risk_level : Bool)) b a) := by
  simp only [Bool.or_eq_true, decide_eq_true_eq]
  exact Nat.le_total _ _

theorem sortAlertsDesc_perm (l : List AlertInfo) : (sortAlertsDesc l).Perm l :=
  List.mergeSort_perm l _

theorem sortAlertsDesc_sorted (l : List AlertInfo) :
    (sortAlertsDesc l).Pairwise
      (fun a b => priority b.risk_level ≤ priority a.risk_level) := by
  have h := List.sorted_mergeSort priorityLe_trans priorityLe_total l
  exact h.imp fun hab => by simpa using hab

/-- Stability: within each severity rank, the ranked view lists exactly the
original alerts in their original relative order. -/
theorem sortAlertsDesc_filter (l : List AlertInfo) (n : Nat) :
    (sortAlertsDesc l).filter (fun a => priority a.risk_level == n) =
      l.filter (fun a => priority a.risk_level == n) := by
  have hmem : ∀ a ∈ l.filter (fun a => priority a.risk_level == n),
      (fun a : AlertInfo => priority a.risk_level == n) a = true :=
    fun a ha => @List.of_mem_filter AlertInfo (fun a => priority a.risk_level == n) a l ha
  have hpw : (l.filter (fun a => priority a.risk_level == n)).Pairwise
      (fun a b : AlertInfo => ((priority b.risk_level ≤ priority a.risk_level : Bool) = true)) := by
    refine List.pairwise_of_forall_mem_list fun a ha b hb => ?_
    have hpa := List.of_mem_filter ha
    have hpb := List.of_mem_filter hb
    simp only [beq_iff_eq] at hpa hpb
    simp [hpa, hpb]
  have hsub : List.Sublist (l.filter (fun a => priority a.risk_level == n))
      (sortAlertsDesc l) :=
    List.sublist_mergeSort priorityLe_trans priorityLe_total hpw
      (List.filter_sublist l)
  have hself : (l.filter (fun a => priority a.risk_level == n)).filter
      (fun a => priority a.risk_level == n) = l.filter (fun a => priority a.risk_level == n) :=
    List.filter_eq_self.mpr hmem
  have h2 := List.Sublist.filter (fun a : AlertInfo => priority a.risk_level == n) hsub
  rw [hself] at h2
  have hlen : ((sortAlertsDesc l).filter (fun a => priority a.risk_level == n)).length =
      (l.filter (fun a => priority a.risk_level == n)).length :=
    (List.Perm.filter _ (sortAlertsDesc_perm l)).length_eq
  exact (h2.eq_of_length hlen.symm).symm

/-- C5: the summary's detail list is the stable descending-rank sort of all
alerts truncated to the first 20 entries (sorted: adjacent ranks never
increase; stable: each rank class keeps exactly the original records in
their original order; a permutation of the input), while the per-level
counts and the total keep counting all alerts. -/
theorem claim5_ranked_truncated (all_alerts : List AlertInfo)
    (scan_info : List (String × ScanInfo)) :
    (aggregateAlerts all_alerts scan_info).alerts = (sortAlertsDesc all_alerts).take 20 ∧
    (sortAlertsDesc all_alerts).Perm all_alerts ∧
    (sortAlertsDesc all_alerts).Pairwise
      (fun a b => priority b.risk_level ≤ priority a.risk_level) ∧
    (∀ n : Nat, (sortAlertsDesc all_alerts).filter (fun a => priority a.risk_level == n)
        = all_alerts.filter (fun a => priority a.risk_level == n)) ∧
    (aggregateAlerts all_alerts scan_info).alerts.length = min 20 all_alerts.length ∧
    (aggregateAlerts all_alerts scan_info).high_risk_count =
      all_alerts.countP (fun a => a.risk_level == "High") ∧
    (aggregateAlerts all_alerts scan_info).medium_risk_count =
      all_alerts.countP (fun a => a.risk_level == "Medium") ∧
    (aggregateAlerts all_alerts scan_info).low_risk_count =
      all_alerts.countP (fun a => a.risk_level == "Low") ∧
    (aggregateAlerts all_alerts scan_info).info_risk_count =
      all_alerts.countP (fun a => a.risk_level == "Informational") ∧
    (aggregateAlerts all_alerts scan_info).unknown_risk_count =
      all_alerts.countP (fun a => !(isKnownLevel a.risk_level)) ∧
    (aggregateAlerts all_alerts scan_info).total_alerts = all_alerts.length ∧
    (priority "High" = 4 ∧ priority "Medium" = 3 ∧ priority "Low" = 2 ∧
      priority "Informational" = 1 ∧ priority "Unknown" = 0 ∧ priority "whatever" = 0) := by
  refine ⟨rfl, sortAlertsDesc_perm all_alerts, sortAlertsDesc_sorted all_alerts,
          sortAlertsDesc_filter all_alerts, ?_, ?_, ?_, ?_, ?_, ?_, rfl, by decide⟩
  · show ((sortAlertsDesc all_alerts).take 20).length = min 20 all_alerts.length
    rw [List.length_take, (sortAlertsDesc_perm all_alerts).length_eq]
  all_goals
    simp [aggregateAlerts, riskCounts_eq]
